import Mathlib

/-!
Shallow embedding of the `demeda` clinic REST service (`main.go`).

Conventions of the embedding:
* `uint` identifiers and foreign keys become `Nat`; `time.Time` values become
  an abstract linear timeline `GoTime := Int`, where `0` is Go's zero time
  (the value a missing JSON time field decodes to), `time.Now()` is an
  arbitrary parameter `now`, `t.Add(d)` is `t + d`, and calendar constants
  `time.Date (y, m, d, 0, 0, 0, 0, UTC)` are encoded injectively by
  `timeDate y m d` (durations in seconds, `timeHour = 3600`).
* The SQLite store behind gorm becomes the `DB` structure: one list of rows
  per table plus one auto-increment counter per table (gorm's sqlite dialect
  declares `integer PRIMARY KEY AUTOINCREMENT`, whose sequence only grows and
  survives `DELETE FROM`).
* A fallible storage call (`.Error` field of a gorm result) is modelled by an
  explicit fault argument: `none` means the statement reached the store,
  `some msg` means the underlying read/write failed with message `msg`.
  `db.First` additionally fails with `recordNotFound` when no row matches.
* Gin's `binding:"required"` (go-playground validator) rejects a field whose
  decoded value is the zero value of its type: `0` for `uint`, `""` for
  `string`, the zero time for `time.Time`. The validator's generated error
  text is abstracted as the constant `bindingErrorMessage`.
* The one schema check constraint (`gender IN ('male','female')`, from the
  gorm tag on `Patient.Gender`) is enforced at the insert boundary, as SQLite
  does; gorm does not turn on SQLite foreign-key enforcement, so no
  referential check exists anywhere else.
-/

namespace Demeda

abbrev GoTime := Int

/-- Injective encoding of `time.Date (y, m, d, 0, 0, 0, 0, time.UTC)`. -/
def timeDate (y m d : Int) : GoTime := ((y * 12 + m) * 31 + d) * 86400

/-- One hour of `time.Duration`, in seconds. -/
def timeHour : Int := 3600

/-- Row of the `patients` table (`type Patient`, persisted columns). -/
structure Patient where
  id : Nat
  createdAt : GoTime
  fullName : String
  birthDate : GoTime
  gender : String
  phone : String
  email : String
deriving Repr, DecidableEq

/-- Row of the `doctors` table (`type Doctor`, persisted columns). -/
structure Doctor where
  id : Nat
  createdAt : GoTime
  fullName : String
  specialization : String
  phone : String
  email : String
deriving Repr, DecidableEq

/-- Row of the `appointments` table (`type Appointment`, persisted columns). -/
structure Appointment where
  id : Nat
  createdAt : GoTime
  patientID : Nat
  doctorID : Nat
  date : GoTime
  diagnosis : String
  treatment : String
  notes : String
deriving Repr, DecidableEq

/-- Row of the `medical_tests` table (`type MedicalTest`, persisted columns). -/
structure MedicalTest where
  id : Nat
  createdAt : GoTime
  appointmentID : Nat
  name : String
  result : String
  unit : String
  referenceRange : String
deriving Repr, DecidableEq

/-- Row of the `medical_histories` table (`type MedicalHistory`, persisted columns). -/
structure MedicalHistory where
  id : Nat
  createdAt : GoTime
  patientID : Nat
  historyType : String
  description : String
  startDate : GoTime
  severity : String
  status : String
  notes : String
deriving Repr, DecidableEq

/-- The SQLite store: five tables plus their AUTOINCREMENT sequences. -/
structure DB where
  patients : List Patient
  doctors : List Doctor
  appointments : List Appointment
  medicalTests : List MedicalTest
  medicalHistories : List MedicalHistory
  nextPatientID : Nat
  nextDoctorID : Nat
  nextAppointmentID : Nat
  nextMedicalTestID : Nat
  nextMedicalHistoryID : Nat
deriving Repr, DecidableEq

/-- A freshly migrated empty database (sequences start at 1). -/
def emptyDB : DB :=
  ⟨[], [], [], [], [], 1, 1, 1, 1, 1⟩

/-- `CreatePatientRequest`: the decoded JSON body, zero-filled for absent fields. -/
structure CreatePatientRequest where
  fullName : String
  birthDate : GoTime
  gender : String
  phone : String
  email : String
deriving Repr, DecidableEq

/-- `CreateAppointmentRequest`: the decoded JSON body, zero-filled for absent fields. -/
structure CreateAppointmentRequest where
  patientID : Nat
  doctorID : Nat
  date : GoTime
  diagnosis : String
  treatment : String
  notes : String
deriving Repr, DecidableEq

/-- `CreateMedicalHistoryRequest`: the decoded JSON body, zero-filled for absent fields. -/
structure CreateMedicalHistoryRequest where
  patientID : Nat
  historyType : String
  description : String
  startDate : GoTime
  severity : String
  status : String
  notes : String
deriving Repr, DecidableEq

/-- `ShouldBindJSON` success for `CreatePatientRequest`: the three
`binding:"required"` fields are non-zero. -/
def bindCreatePatientRequest (r : CreatePatientRequest) : Bool :=
  r.fullName != "" && r.birthDate != 0 && r.gender != ""

/-- `ShouldBindJSON` success for `CreateAppointmentRequest`: the three
`binding:"required"` fields are non-zero. -/
def bindCreateAppointmentRequest (r : CreateAppointmentRequest) : Bool :=
  r.patientID != 0 && r.doctorID != 0 && r.date != 0

/-- `ShouldBindJSON` success for `CreateMedicalHistoryRequest`: the three
`binding:"required"` fields are non-zero. -/
def bindCreateMedicalHistoryRequest (r : CreateMedicalHistoryRequest) : Bool :=
  r.patientID != 0 && r.historyType != "" && r.description != ""

/-- Stand-in for the validator-generated text returned with every 400. -/
def bindingErrorMessage : String := "validation failed"

/-- The schema check constraint `gender IN ('male','female')`. -/
def validGender (g : String) : Bool :=
  g == "male" || g == "female"

/-- Error of a storage call, as seen through a gorm result's `Error` field. -/
inductive QueryError where
  | recordNotFound
  | storage (msg : String)
deriving Repr, DecidableEq

/-- JSON response body, one constructor per shape the handlers serialize. -/
inductive Body where
  | err (msg : String)
  | msg (text : String)
  | patientRec (p : Patient)
  | patientFull (p : Patient) (history : List MedicalHistory)
      (appointments : List (Appointment × Option Doctor))
  | doctorRec (d : Doctor)
  | appointmentRec (a : Appointment)
  | appointmentFull (a : Appointment) (patient : Option Patient)
      (doctor : Option Doctor) (tests : List MedicalTest)
  | historyRec (h : MedicalHistory)
  | appointmentRows (rows : List (Appointment × Option Patient × Option Doctor))
  | historyRows (rows : List (MedicalHistory × Option Patient))
deriving Repr, DecidableEq

/-- An HTTP response: status code and JSON body. -/
structure Response where
  status : Nat
  body : Body
deriving Repr, DecidableEq

/-- The entity record carried by a patient response, if any. -/
def Body.patientOf : Body → Option Patient
  | .patientRec p => some p
  | .patientFull p _ _ => some p
  | _ => none

/-- The entity record carried by an appointment response, if any. -/
def Body.appointmentOf : Body → Option Appointment
  | .appointmentRec a => some a
  | .appointmentFull a _ _ _ => some a
  | _ => none

/-- `db.First (patient, id)`: first row with the given primary key. -/
def dbFirstPatient (db : DB) (fault : Option String) (id : Nat) :
    Except QueryError Patient :=
  match fault with
  | some m => .error (.storage m)
  | none =>
    match db.patients.find? (fun p => p.id == id) with
    | some p => .ok p
    | none => .error .recordNotFound

/-- `db.First (doctor, id)`: first row with the given primary key. -/
def dbFirstDoctor (db : DB) (fault : Option String) (id : Nat) :
    Except QueryError Doctor :=
  match fault with
  | some m => .error (.storage m)
  | none =>
    match db.doctors.find? (fun d => d.id == id) with
    | some d => .ok d
    | none => .error .recordNotFound

/-- `db.First (appointment, id)`: first row with the given primary key. -/
def dbFirstAppointment (db : DB) (fault : Option String) (id : Nat) :
    Except QueryError Appointment :=
  match fault with
  | some m => .error (.storage m)
  | none =>
    match db.appointments.find? (fun a => a.id == id) with
    | some a => .ok a
    | none => .error .recordNotFound

/-- The row `db.Create (patient)` inserts: fresh id, `CreatedAt = now`,
payload fields copied from the request. -/
def newPatient (db : DB) (now : GoTime) (r : CreatePatientRequest) : Patient :=
  ⟨db.nextPatientID, now, r.fullName, r.birthDate, r.gender, r.phone, r.email⟩

/-- Unchecked insert of a patient row; returns the new store and the row. -/
def dbCreatePatientRow (db : DB) (now : GoTime) (r : CreatePatientRequest) :
    DB × Patient :=
  let p := newPatient db now r
  ({ db with patients := db.patients ++ [p],
             nextPatientID := db.nextPatientID + 1 }, p)

/-- `db.Create (patient)` at the storage boundary: the gender check constraint
can reject the row, any other failure is injected by `fault`. -/
def dbCreatePatient (db : DB) (now : GoTime) (fault : Option String)
    (r : CreatePatientRequest) : Except String (DB × Patient) :=
  match fault with
  | some m => .error m
  | none =>
    if validGender r.gender then .ok (dbCreatePatientRow db now r)
    else .error "CHECK constraint failed: gender"

/-- The row `db.Create (appointment)` inserts. -/
def newAppointment (db : DB) (now : GoTime) (r : CreateAppointmentRequest) :
    Appointment :=
  ⟨db.nextAppointmentID, now, r.patientID, r.doctorID, r.date,
    r.diagnosis, r.treatment, r.notes⟩

/-- Insert of an appointment row: no check constraint, no foreign-key
enforcement, so only an injected fault can fail. -/
def dbCreateAppointmentRow (db : DB) (now : GoTime)
    (r : CreateAppointmentRequest) : DB × Appointment :=
  let a := newAppointment db now r
  ({ db with appointments := db.appointments ++ [a],
             nextAppointmentID := db.nextAppointmentID + 1 }, a)

/-- The row `db.Create (history)` inserts. -/
def newMedicalHistory (db : DB) (now : GoTime)
    (r : CreateMedicalHistoryRequest) : MedicalHistory :=
  ⟨db.nextMedicalHistoryID, now, r.patientID, r.historyType, r.description,
    r.startDate, r.severity, r.status, r.notes⟩

/-- Insert of a medical-history row: no check constraint, no foreign-key
enforcement. -/
def dbCreateMedicalHistoryRow (db : DB) (now : GoTime)
    (r : CreateMedicalHistoryRequest) : DB × MedicalHistory :=
  let h := newMedicalHistory db now r
  ({ db with medicalHistories := db.medicalHistories ++ [h],
             nextMedicalHistoryID := db.nextMedicalHistoryID + 1 }, h)

/-- Handler `getPatient`: any error from `First` — including an underlying
storage failure — is answered with 404 and the fixed message; on success the
patient is returned with its preloaded `MedicalHistory` and `Appointments`
(each appointment carrying its `Doctor`). -/
def getPatient (db : DB) (fault : Option String) (id : Nat) : Response :=
  match dbFirstPatient db fault id with
  | .error _ => ⟨404, .err "Patient not found"⟩
  | .ok p =>
    ⟨200, .patientFull p
      (db.medicalHistories.filter (fun h => h.patientID == p.id))
      ((db.appointments.filter (fun a => a.patientID == p.id)).map
        (fun a => (a, db.doctors.find? (fun d => d.id == a.doctorID))))⟩

/-- Handler `getDoctor`: any error from `First` is answered with 404. -/
def getDoctor (db : DB) (fault : Option String) (id : Nat) : Response :=
  match dbFirstDoctor db fault id with
  | .error _ => ⟨404, .err "Doctor not found"⟩
  | .ok d => ⟨200, .doctorRec d⟩

/-- Handler `getAppointment`: any error from `First` is answered with 404;
on success the appointment is returned with its preloaded `Patient`,
`Doctor` and `MedicalTests`. -/
def getAppointment (db : DB) (fault : Option String) (id : Nat) : Response :=
  match dbFirstAppointment db fault id with
  | .error _ => ⟨404, .err "Appointment not found"⟩
  | .ok a =>
    ⟨200, .appointmentFull a
      (db.patients.find? (fun p => p.id == a.patientID))
      (db.doctors.find? (fun d => d.id == a.doctorID))
      (db.medicalTests.filter (fun t => t.appointmentID == a.id))⟩

/-- Handler `createPatient`: bind, insert, answer 201 with the created row. -/
def createPatient (db : DB) (now : GoTime) (fault : Option String)
    (req : CreatePatientRequest) : Response × DB :=
  if bindCreatePatientRequest req then
    match dbCreatePatient db now fault req with
    | .error m => (⟨500, .err m⟩, db)
    | .ok (db', p) => (⟨201, .patientRec p⟩, db')
  else (⟨400, .err bindingErrorMessage⟩, db)

/-- Handler `updatePatient`: `First` (404 on any error), bind (400), then
every mutable field is overwritten and the row saved by primary key. -/
def updatePatient (db : DB) (readFault saveFault : Option String) (id : Nat)
    (req : CreatePatientRequest) : Response × DB :=
  match dbFirstPatient db readFault id with
  | .error _ => (⟨404, .err "Patient not found"⟩, db)
  | .ok p =>
    if bindCreatePatientRequest req then
      let p' : Patient :=
        { p with fullName := req.fullName, birthDate := req.birthDate,
                 gender := req.gender, phone := req.phone, email := req.email }
      match saveFault with
      | some m => (⟨500, .err m⟩, db)
      | none =>
        (⟨200, .patientRec p'⟩,
          { db with patients :=
              db.patients.map (fun q => if q.id == id then p' else q) })
    else (⟨400, .err bindingErrorMessage⟩, db)

/-- Handler `deletePatient`: unconditional delete by primary key, 200 even
when no row matched. -/
def deletePatient (db : DB) (fault : Option String) (id : Nat) :
    Response × DB :=
  match fault with
  | some m => (⟨500, .err m⟩, db)
  | none =>
    (⟨200, .msg "Patient deleted"⟩,
      { db with patients := db.patients.filter (fun p => p.id != id) })

/-- Query-building of `getAppointments`: each supplied parameter adds one
equality `Where`; `none` stands for an absent (or empty) query parameter. -/
def appointmentsWhere (db : DB) (patientID doctorID : Option Nat) :
    List Appointment :=
  db.appointments.filter (fun a =>
    (match patientID with | none => true | some v => a.patientID == v) &&
    (match doctorID with | none => true | some v => a.doctorID == v))

/-- Handler `getAppointments`: filtered list, each row preloaded with its
`Patient` and `Doctor`. -/
def getAppointments (db : DB) (fault : Option String)
    (patientID doctorID : Option Nat) : Response :=
  match fault with
  | some m => ⟨500, .err m⟩
  | none =>
    ⟨200, .appointmentRows ((appointmentsWhere db patientID doctorID).map
      (fun a => (a, db.patients.find? (fun p => p.id == a.patientID),
                    db.doctors.find? (fun d => d.id == a.doctorID))))⟩

/-- Handler `createAppointment`: bind, insert (no referential check), 201. -/
def createAppointment (db : DB) (now : GoTime) (fault : Option String)
    (req : CreateAppointmentRequest) : Response × DB :=
  if bindCreateAppointmentRequest req then
    match fault with
    | some m => (⟨500, .err m⟩, db)
    | none =>
      let (db', a) := dbCreateAppointmentRow db now req
      (⟨201, .appointmentRec a⟩, db')
  else (⟨400, .err bindingErrorMessage⟩, db)

/-- Handler `updateAppointment`: `First` (404 on any error), bind (400),
overwrite every mutable field, save by primary key. -/
def updateAppointment (db : DB) (readFault saveFault : Option String)
    (id : Nat) (req : CreateAppointmentRequest) : Response × DB :=
  match dbFirstAppointment db readFault id with
  | .error _ => (⟨404, .err "Appointment not found"⟩, db)
  | .ok a =>
    if bindCreateAppointmentRequest req then
      let a' : Appointment :=
        { a with patientID := req.patientID, doctorID := req.doctorID,
                 date := req.date, diagnosis := req.diagnosis,
                 treatment := req.treatment, notes := req.notes }
      match saveFault with
      | some m => (⟨500, .err m⟩, db)
      | none =>
        (⟨200, .appointmentRec a'⟩,
          { db with appointments :=
              db.appointments.map (fun q => if q.id == id then a' else q) })
    else (⟨400, .err bindingErrorMessage⟩, db)

/-- Handler `deleteAppointment`: unconditional delete by primary key. -/
def deleteAppointment (db : DB) (fault : Option String) (id : Nat) :
    Response × DB :=
  match fault with
  | some m => (⟨500, .err m⟩, db)
  | none =>
    (⟨200, .msg "Appointment deleted"⟩,
      { db with appointments := db.appointments.filter (fun a => a.id != id) })

/-- Query-building of `getMedicalHistory`: equality `Where` on `patient_id`
and/or `history_type`, each parameter optional. -/
def medicalHistoryWhere (db : DB) (patientID : Option Nat)
    (historyType : Option String) : List MedicalHistory :=
  db.medicalHistories.filter (fun h =>
    (match patientID with | none => true | some v => h.patientID == v) &&
    (match historyType with | none => true | some t => h.historyType == t))

/-- Handler `getMedicalHistory`: filtered list, each row preloaded with its
`Patient`. -/
def getMedicalHistory (db : DB) (fault : Option String)
    (patientID : Option Nat) (historyType : Option String) : Response :=
  match fault with
  | some m => ⟨500, .err m⟩
  | none =>
    ⟨200, .historyRows ((medicalHistoryWhere db patientID historyType).map
      (fun h => (h, db.patients.find? (fun p => p.id == h.patientID))))⟩

/-- Handler `createMedicalHistory`: bind, insert (no referential check), 201. -/
def createMedicalHistory (db : DB) (now : GoTime) (fault : Option String)
    (req : CreateMedicalHistoryRequest) : Response × DB :=
  if bindCreateMedicalHistoryRequest req then
    match fault with
    | some m => (⟨500, .err m⟩, db)
    | none =>
      let (db', h) := dbCreateMedicalHistoryRow db now req
      (⟨201, .historyRec h⟩, db')
  else (⟨400, .err bindingErrorMessage⟩, db)

/-- Handler `deleteMedicalHistory`: unconditional delete by primary key. -/
def deleteMedicalHistory (db : DB) (fault : Option String) (id : Nat) :
    Response × DB :=
  match fault with
  | some m => (⟨500, .err m⟩, db)
  | none =>
    (⟨200, .msg "Medical history record deleted"⟩,
      { db with medicalHistories :=
          db.medicalHistories.filter (fun h => h.id != id) })

/-- Modelled from the spec: the source exposes no doctor delete endpoint or
handler; section 4.1 declares a delete-by-id operation for every entity
type, so doctor deletion is modelled as the same unconditional
delete-by-primary-key the other entities use. -/
def deleteDoctorRow (db : DB) (id : Nat) : DB :=
  { db with doctors := db.doctors.filter (fun d => d.id != id) }

/-- Modelled from the spec: the source exposes no get-by-id endpoint for
medical-history entries; section 4.1 declares a get-by-id operation for
every entity type, failing with NotFound when no row matches, so it is
modelled as the primary-key lookup the other entities use. -/
def getMedicalHistoryByID (db : DB) (id : Nat) :
    Except QueryError MedicalHistory :=
  match db.medicalHistories.find? (fun h => h.id == id) with
  | some h => .ok h
  | none => .error .recordNotFound

/-- Payload of a seeded doctor row (the struct literal fields used in
`seedDatabase`; doctors have no create endpoint). -/
structure DoctorSeed where
  fullName : String
  specialization : String
  phone : String
  email : String
deriving Repr, DecidableEq

/-- Payload of a seeded medical-test row. -/
structure MedicalTestSeed where
  appointmentID : Nat
  name : String
  result : String
  unit : String
  referenceRange : String
deriving Repr, DecidableEq

/-- The row a seeded doctor literal inserts. -/
def newDoctor (db : DB) (now : GoTime) (s : DoctorSeed) : Doctor :=
  ⟨db.nextDoctorID, now, s.fullName, s.specialization, s.phone, s.email⟩

/-- Unchecked insert of a doctor row. -/
def dbCreateDoctorRow (db : DB) (now : GoTime) (s : DoctorSeed) : DB :=
  { db with doctors := db.doctors ++ [newDoctor db now s],
            nextDoctorID := db.nextDoctorID + 1 }

/-- The row a seeded medical-test literal inserts. -/
def newMedicalTest (db : DB) (now : GoTime) (s : MedicalTestSeed) :
    MedicalTest :=
  ⟨db.nextMedicalTestID, now, s.appointmentID, s.name, s.result, s.unit,
    s.referenceRange⟩

/-- Unchecked insert of a medical-test row. -/
def dbCreateMedicalTestRow (db : DB) (now : GoTime) (s : MedicalTestSeed) :
    DB :=
  { db with medicalTests := db.medicalTests ++ [newMedicalTest db now s],
            nextMedicalTestID := db.nextMedicalTestID + 1 }

/-- `db.Create (slice of patients)`: one multi-row insert, all-or-nothing
at the check constraint. -/
def dbCreatePatientBulk (db : DB) (now : GoTime)
    (reqs : List CreatePatientRequest) : DB :=
  if reqs.all (fun r => validGender r.gender) then
    reqs.foldl (fun d r => (dbCreatePatientRow d now r).1) db
  else db

/-- `db.Create (slice of doctors)`. -/
def dbCreateDoctorBulk (db : DB) (now : GoTime) (rows : List DoctorSeed) :
    DB :=
  rows.foldl (fun d s => dbCreateDoctorRow d now s) db

/-- `db.Create (slice of appointments)`. -/
def dbCreateAppointmentBulk (db : DB) (now : GoTime)
    (reqs : List CreateAppointmentRequest) : DB :=
  reqs.foldl (fun d r => (dbCreateAppointmentRow d now r).1) db

/-- `db.Create (slice of medical tests)`. -/
def dbCreateMedicalTestBulk (db : DB) (now : GoTime)
    (rows : List MedicalTestSeed) : DB :=
  rows.foldl (fun d s => dbCreateMedicalTestRow d now s) db

/-- `db.Create (slice of medical histories)`. -/
def dbCreateMedicalHistoryBulk (db : DB) (now : GoTime)
    (reqs : List CreateMedicalHistoryRequest) : DB :=
  reqs.foldl (fun d r => (dbCreateMedicalHistoryRow d now r).1) db

/-- The five seeded patients. -/
def seedPatients : List CreatePatientRequest :=
  [⟨"Иванов Иван Иванович", timeDate 1985 5 15, "male", "+79990000001", "ivanov@mail.ru"⟩,
   ⟨"Петрова Мария Сергеевна", timeDate 1990 8 22, "female", "+79990000002", "petrova@mail.ru"⟩,
   ⟨"Сидоров Алексей Владимирович", timeDate 1978 3 10, "male", "+79990000003", "sidorov@mail.ru"⟩,
   ⟨"Кузнецова Елена Викторовна", timeDate 1982 11 5, "female", "+79990000004", "kuznetsova@mail.ru"⟩,
   ⟨"Смирнов Дмитрий Петрович", timeDate 1995 7 30, "male", "+79990000005", "smirnov@mail.ru"⟩]

/-- The four seeded doctors. -/
def seedDoctors : List DoctorSeed :=
  [⟨"Прохоров Андрей Васильевич", "Кардиолог", "+79991111111", "prokhorov@clinic.ru"⟩,
   ⟨"Громова Ольга Игоревна", "Невролог", "+79991111112", "gromova@clinic.ru"⟩,
   ⟨"Белов Станислав Михайлович", "Терапевт", "+79991111113", "belov@clinic.ru"⟩,
   ⟨"Ковальчук Анна Денисовна", "Офтальмолог", "+79991111114", "kovalchuk@clinic.ru"⟩]

/-- The five seeded appointments; their dates are offsets of `time.Now()`. -/
def seedAppointments (now : GoTime) : List CreateAppointmentRequest :=
  [⟨1, 1, now - 24 * timeHour, "Гипертония", "Контроль давления, лизиноприл 10 мг 1 раз в день", "Жалобы на головные боли"⟩,
   ⟨2, 2, now - 12 * timeHour, "Мигрень", "Ибупрофен при болях, режим сна", "Рекомендован отдых"⟩,
   ⟨3, 3, now - 6 * timeHour, "ОРВИ", "Обильное питье, парацетамол", "Температура 37.8"⟩,
   ⟨4, 4, now - 3 * timeHour, "Конъюнктивит", "Глазные капли Офтальмоферон", "Назначен повторный прием через 5 дней"⟩,
   ⟨5, 1, now, "Аритмия", "Холтеровское мониторирование", "Направлен на дополнительное обследование"⟩]

/-- The six seeded medical tests. -/
def seedMedicalTests : List MedicalTestSeed :=
  [⟨1, "Артериальное давление", "140/90", "мм рт.ст.", "120/80"⟩,
   ⟨1, "Холестерин", "5.2", "ммоль/л", "3.5-5.2"⟩,
   ⟨2, "МРТ головного мозга", "Без патологий", "-", "-"⟩,
   ⟨3, "Температура тела", "37.8", "°C", "36.6"⟩,
   ⟨4, "Острота зрения", "0.8", "усл.ед.", "1.0"⟩,
   ⟨5, "ЭКГ", "Мерцательная аритмия", "-", "Синусовый ритм"⟩]

/-- The ten seeded medical-history entries. -/
def seedMedicalHistories : List CreateMedicalHistoryRequest :=
  [⟨1, "allergy", "Аллергия на пенициллин", timeDate 2005 1 1, "severe", "active", "Анафилактический шок при приеме"⟩,
   ⟨2, "allergy", "Сезонная аллергия на пыльцу", timeDate 2010 1 1, "moderate", "active", "Обострение весной"⟩,
   ⟨1, "chronic", "Артериальная гипертензия", timeDate 2015 1 1, "moderate", "chronic", "Постоянный прием препаратов"⟩,
   ⟨3, "chronic", "Сахарный диабет 2 типа", timeDate 2018 1 1, "mild", "chronic", "Контроль диеты"⟩,
   ⟨4, "chronic", "Бронхиальная астма", timeDate 2012 1 1, "mild", "chronic", "Ингалятор по необходимости"⟩,
   ⟨2, "surgery", "Аппендэктомия", timeDate 2015 6 15, "moderate", "resolved", "Восстановление прошло без осложнений"⟩,
   ⟨5, "surgery", "Артроскопия коленного сустава", timeDate 2020 3 10, "moderate", "resolved", "Спортивная травма"⟩,
   ⟨1, "family", "Инфаркт миокарда у отца в 55 лет", timeDate 2010 1 1, "severe", "active", "Наследственная предрасположенность"⟩,
   ⟨3, "family", "Онкологические заболевания у родственников", timeDate 2000 1 1, "moderate", "active", "Бабушка - рак молочной железы"⟩,
   ⟨3, "habit", "Курение", timeDate 2000 1 1, "moderate", "active", "10 сигарет в день, 20 лет стажа"⟩,
   ⟨5, "habit", "Злоупотребление алкоголем", timeDate 2018 1 1, "mild", "resolved", "Воздержание 2 года"⟩]

/-- Fault injection for the ten storage statements `seedDatabase` issues,
in program order; `true` makes the statement fail. The Go code discards
every one of these errors. -/
structure SeedFaults where
  delHistories : Bool
  delTests : Bool
  delAppointments : Bool
  delPatients : Bool
  delDoctors : Bool
  insPatients : Bool
  insDoctors : Bool
  insAppointments : Bool
  insTests : Bool
  insHistories : Bool
deriving Repr, DecidableEq

/-- All ten seed statements succeed. -/
def noSeedFaults : SeedFaults :=
  ⟨false, false, false, false, false, false, false, false, false, false⟩

/-- `seedDatabase` with fault injection: five `DELETE FROM` statements, then
five bulk inserts; every error is discarded and execution continues
(`DELETE FROM` does not reset the AUTOINCREMENT sequences). -/
def seedDatabaseF (db : DB) (now : GoTime) (f : SeedFaults) : DB :=
  let db := if f.delHistories then db else { db with medicalHistories := [] }
  let db := if f.delTests then db else { db with medicalTests := [] }
  let db := if f.delAppointments then db else { db with appointments := [] }
  let db := if f.delPatients then db else { db with patients := [] }
  let db := if f.delDoctors then db else { db with doctors := [] }
  let db := if f.insPatients then db else dbCreatePatientBulk db now seedPatients
  let db := if f.insDoctors then db else dbCreateDoctorBulk db now seedDoctors
  let db := if f.insAppointments then db
            else dbCreateAppointmentBulk db now (seedAppointments now)
  let db := if f.insTests then db
            else dbCreateMedicalTestBulk db now seedMedicalTests
  let db := if f.insHistories then db
            else dbCreateMedicalHistoryBulk db now seedMedicalHistories
  db

/-- `seedDatabase` on a healthy store. -/
def seedDatabase (db : DB) (now : GoTime) : DB :=
  seedDatabaseF db now noSeedFaults

/-- Erase the clock-derived fields (every row's `CreatedAt`, and the seeded
appointments' `Date` offsets of `time.Now()`). -/
def stripDBTimes (db : DB) : DB :=
  { db with
    patients := db.patients.map (fun p => { p with createdAt := 0 }),
    doctors := db.doctors.map (fun d => { d with createdAt := 0 }),
    appointments :=
      db.appointments.map (fun a => { a with createdAt := 0, date := 0 }),
    medicalTests := db.medicalTests.map (fun t => { t with createdAt := 0 }),
    medicalHistories :=
      db.medicalHistories.map (fun h => { h with createdAt := 0 }) }

/-- Outcome of the startup sequence in `main`. -/
inductive StartupOutcome where
  | panicked (msg : String)
  | listening (db : DB)
deriving Repr, DecidableEq

/-- The startup sequence of `main`: `gorm.Open` failure panics,
`AutoMigrate` failure panics, then `seedDatabase` runs with its errors
discarded, and the process reaches the HTTP listener. -/
def mainStartup (openOk migrateOk : Bool) (db : DB) (now : GoTime)
    (f : SeedFaults) : StartupOutcome :=
  if !openOk then .panicked "Failed to connect to database"
  else if !migrateOk then .panicked "Database migration failed"
  else .listening (seedDatabaseF db now f)

/-- A sample store used to instantiate proved properties concretely. -/
def samplePatient : Patient :=
  ⟨1, 5, "Test User", timeDate 1990 1 1, "male", "", ""⟩

/-- A sample doctor row. -/
def sampleDoctor : Doctor :=
  ⟨1, 5, "Sample Doctor", "Терапевт", "", ""⟩

/-- A sample appointment row. -/
def sampleAppointment : Appointment :=
  ⟨1, 5, 1, 1, 10, "", "", ""⟩

/-- A sample medical-history row. -/
def sampleHistory : MedicalHistory :=
  ⟨1, 5, 1, "allergy", "Pollen", 0, "", "", ""⟩

/-- A sample store holding one row of each kind reachable by the API. -/
def sampleDB : DB :=
  ⟨[samplePatient], [sampleDoctor], [sampleAppointment], [], [sampleHistory],
    2, 2, 2, 2, 2⟩

/-- Appending a row with a key fresh above every existing key makes the
primary-key lookup return exactly that row. -/
theorem find?_append_fresh {α : Type} (key : α → Nat) (l : List α) (n : Nat)
    (a : α) (ha : key a = n) (h : ∀ x ∈ l, key x < n) :
    (l ++ [a]).find? (fun x => key x == n) = some a := by
  induction l with
  | nil => simp [List.find?, ha]
  | cons x xs ih =>
    have hx : key x < n := h x (by simp)
    have hne : (key x == n) = false := by
      simp only [beq_eq_false_iff_ne, ne_eq]
      omega
    simp only [List.cons_append, List.find?_cons, hne]
    exact ih fun y hy => h y (by simp [hy])

/-- A key above every existing key is not among the existing keys. -/
theorem fresh_key_not_mem {α : Type} (key : α → Nat) (l : List α) (n : Nat)
    (h : ∀ x ∈ l, key x < n) : n ∉ l.map key := by
  intro hmem
  obtain ⟨x, hx, hkx⟩ := List.mem_map.mp hmem
  have := h x hx
  omega

/-- The found row satisfies the lookup predicate. -/
theorem find?_key_eq {α : Type} (key : α → Nat) (l : List α) (n : Nat)
    (p : α) (h : l.find? (fun x => key x == n) = some p) : key p = n := by
  have := List.find?_some h
  simpa using this

/-- Replacing by primary key: if the lookup found a row, the lookup after
the keyed replacement finds the replacement. -/
theorem find?_replace_by_key {α : Type} (key : α → Nat) (l : List α)
    (n : Nat) (p p' : α) (h : l.find? (fun x => key x == n) = some p)
    (hk : key p' = n) :
    (l.map (fun q => if key q == n then p' else q)).find?
      (fun x => key x == n) = some p' := by
  have hp : key p = n := find?_key_eq key l n p h
  rw [List.find?_map]
  have hfun : ((fun x => key x == n) ∘
      fun q => if (key q == n) = true then p' else q)
      = fun q => key q == n := by
    funext q
    by_cases hq : key q = n
    · simp [hq, hk]
    · simp [hq]
  rw [hfun, h]
  simp [hp]

/-- The always-false lookup finds nothing. -/
theorem find?_const_false {α : Type} (l : List α) :
    l.find? (fun _ => false) = none := by
  rw [List.find?_eq_none]
  intro x _ hx
  simp at hx

/-- After removing every row with the given key, the primary-key lookup
finds nothing. -/
theorem find?_after_erase {α : Type} (key : α → Nat) (l : List α) (n : Nat) :
    (l.filter (fun x => key x != n)).find? (fun x => key x == n) = none := by
  rw [List.find?_eq_none]
  intro x hx
  have hmem := List.mem_filter.mp hx
  simpa using hmem.2

/-- When the primary-key lookup finds nothing, removing rows with that key
leaves the table unchanged. -/
theorem filter_ne_of_find?_none {α : Type} (key : α → Nat) (l : List α)
    (n : Nat) (h : l.find? (fun x => key x == n) = none) :
    l.filter (fun x => key x != n) = l := by
  rw [List.filter_eq_self]
  intro a ha
  have := List.find?_eq_none.mp h a ha
  simpa using this

/-- C3: deleting a record by an identifier and then getting that same
identifier yields NotFound (404) for every entity type that supports
get-by-id: patients, doctors (whose delete operation is the spec-modelled
`deleteDoctorRow`), and appointments. -/
theorem delete_then_get_yields_not_found (db : DB) (id : Nat) :
    getPatient (deletePatient db none id).2 none id
      = ⟨404, .err "Patient not found"⟩ ∧
    getDoctor (deleteDoctorRow db id) none id
      = ⟨404, .err "Doctor not found"⟩ ∧
    getAppointment (deleteAppointment db none id).2 none id
      = ⟨404, .err "Appointment not found"⟩ := by
  refine ⟨?_, ?_, ?_⟩ <;>
    simp [getPatient, deletePatient, getDoctor, deleteDoctorRow,
      getAppointment, deleteAppointment, dbFirstPatient, dbFirstDoctor,
      dbFirstAppointment, find?_after_erase, find?_const_false]

/-- C5: DELETE on patients, appointments and medical history answers 200
with the confirmation message regardless of the identifier, and when no row
with the identifier exists the store is left unchanged — no existence check
precedes the delete. -/
theorem delete_succeeds_without_existence_check (db : DB) (id : Nat) :
    (deletePatient db none id).1 = ⟨200, .msg "Patient deleted"⟩ ∧
    (deleteAppointment db none id).1 = ⟨200, .msg "Appointment deleted"⟩ ∧
    (deleteMedicalHistory db none id).1
      = ⟨200, .msg "Medical history record deleted"⟩ ∧
    (db.patients.find? (fun p => p.id == id) = none →
      (deletePatient db none id).2 = db) ∧
    (db.appointments.find? (fun a => a.id == id) = none →
      (deleteAppointment db none id).2 = db) ∧
    (db.medicalHistories.find? (fun h => h.id == id) = none →
      (deleteMedicalHistory db none id).2 = db) := by
  refine ⟨rfl, rfl, rfl, ?_, ?_, ?_⟩ <;> intro h <;>
    simp [deletePatient, deleteAppointment, deleteMedicalHistory,
      filter_ne_of_find?_none _ _ _ h]

/-- C5 witness: deleting the absent identifier 99 from the sample store
answers 200 three times and leaves the store unchanged. -/
theorem delete_succeeds_without_existence_check_witness :
    (deletePatient sampleDB none 99).1 = ⟨200, .msg "Patient deleted"⟩ ∧
    (deletePatient sampleDB none 99).2 = sampleDB := by
  exact ⟨(delete_succeeds_without_existence_check sampleDB 99).1,
    (delete_succeeds_without_existence_check sampleDB 99).2.2.2.1 (by decide)⟩

/-- C4: the filtered list endpoints return exactly the rows whose column
equals the supplied value; an absent parameter imposes no filter; two
parameters combine as the logical AND (intersection) of the two equality
filters. -/
theorem filtered_lists_equality_and_intersection (db : DB)
    (pid did : Option Nat) (htype : Option String) :
    (getAppointments db none pid did
      = ⟨200, .appointmentRows ((appointmentsWhere db pid did).map
          (fun a => (a, db.patients.find? (fun p => p.id == a.patientID),
            db.doctors.find? (fun d => d.id == a.doctorID))))⟩) ∧
    (∀ a, a ∈ appointmentsWhere db pid did ↔ a ∈ db.appointments ∧
      (∀ v, pid = some v → a.patientID = v) ∧
      (∀ v, did = some v → a.doctorID = v)) ∧
    (appointmentsWhere db none none = db.appointments) ∧
    (∀ p d, appointmentsWhere db (some p) (some d)
      = (appointmentsWhere db (some p) none).filter
          (fun a => a.doctorID == d)) ∧
    (getMedicalHistory db none pid htype
      = ⟨200, .historyRows ((medicalHistoryWhere db pid htype).map
          (fun h => (h, db.patients.find? (fun p => p.id == h.patientID))))⟩) ∧
    (∀ h, h ∈ medicalHistoryWhere db pid htype ↔ h ∈ db.medicalHistories ∧
      (∀ v, pid = some v → h.patientID = v) ∧
      (∀ t, htype = some t → h.historyType = t)) ∧
    (medicalHistoryWhere db none none = db.medicalHistories) ∧
    (∀ p t, medicalHistoryWhere db (some p) (some t)
      = (medicalHistoryWhere db (some p) none).filter
          (fun h => h.historyType == t)) := by
  refine ⟨rfl, ?_, ?_, ?_, rfl, ?_, ?_, ?_⟩
  · intro a
    cases pid <;> cases did <;>
      simp [appointmentsWhere, List.mem_filter, and_assoc]
  · simp [appointmentsWhere]
  · intro p d
    simp only [appointmentsWhere, List.filter_filter, Bool.and_true]
    exact List.filter_congr fun a _ => Bool.and_comm _ _
  · intro h
    cases pid <;> cases htype <;>
      simp [medicalHistoryWhere, List.mem_filter, and_assoc]
  · simp [medicalHistoryWhere]
  · intro p t
    simp only [medicalHistoryWhere, List.filter_filter, Bool.and_true]
    exact List.filter_congr fun h _ => Bool.and_comm _ _

/-- C4 witness: in the sample store the parameterless appointment and
history lists return every row of their tables. -/
theorem filtered_lists_equality_and_intersection_witness :
    appointmentsWhere sampleDB none none = sampleDB.appointments ∧
    medicalHistoryWhere sampleDB none none = sampleDB.medicalHistories :=
  ⟨(filtered_lists_equality_and_intersection sampleDB none none none).2.2.1,
    (filtered_lists_equality_and_intersection sampleDB none none
      none).2.2.2.2.2.2.1⟩

/-- C9 (amended): on every get-by-id endpoint an underlying storage read
failure is reported exactly like the no-row case — 404 with the fixed
message — never 500 with the underlying message. -/
theorem get_by_id_maps_storage_failure_to_404 (db : DB) (id : Nat)
    (m : String) :
    getPatient db (some m) id = ⟨404, .err "Patient not found"⟩ ∧
    getDoctor db (some m) id = ⟨404, .err "Doctor not found"⟩ ∧
    getAppointment db (some m) id = ⟨404, .err "Appointment not found"⟩ :=
  ⟨rfl, rfl, rfl⟩

/-- C9 counterexample: with the requested rows present but the underlying
read failing with message "disk failure", the get-by-id handlers answer 404
with the fixed not-found message, not 500 with the underlying message. -/
theorem get_by_id_storage_failure_counterexample :
    getPatient sampleDB (some "disk failure") 1
      = ⟨404, .err "Patient not found"⟩ ∧
    (getPatient sampleDB (some "disk failure") 1).status ≠ 500 ∧
    getDoctor sampleDB (some "disk failure") 1
      = ⟨404, .err "Doctor not found"⟩ ∧
    getAppointment sampleDB (some "disk failure") 1
      = ⟨404, .err "Appointment not found"⟩ := by
  refine ⟨rfl, by decide, rfl, rfl⟩

/-- A sample valid patient payload. -/
def samplePatientReq : CreatePatientRequest :=
  ⟨"Replaced Name", timeDate 1991 2 3, "female", "+70001112233", "r@mail.ru"⟩

/-- A sample valid appointment payload. -/
def sampleAppointmentReq : CreateAppointmentRequest :=
  ⟨2, 2, 77, "diagnosis", "treatment", "notes"⟩

/-- A sample valid medical-history payload. -/
def sampleHistoryReq : CreateMedicalHistoryRequest :=
  ⟨3, "chronic", "description", 0, "", "", ""⟩

/-- C1: for every valid create payload the record answered with 201 carries
an identifier distinct from every identifier already in the table (the
auto-increment sequence sits above all of them), and a subsequent get-by-id
with that identifier returns that same record; medical-history get-by-id is
the spec-modelled `getMedicalHistoryByID`. -/
theorem create_assigns_fresh_id_and_roundtrips (db : DB) (now : GoTime)
    (pr : CreatePatientRequest) (ar : CreateAppointmentRequest)
    (hr : CreateMedicalHistoryRequest)
    (hwfp : ∀ p ∈ db.patients, p.id < db.nextPatientID)
    (hwfa : ∀ a ∈ db.appointments, a.id < db.nextAppointmentID)
    (hwfh : ∀ h ∈ db.medicalHistories, h.id < db.nextMedicalHistoryID)
    (hbp : bindCreatePatientRequest pr = true)
    (hg : validGender pr.gender = true)
    (hba : bindCreateAppointmentRequest ar = true)
    (hbh : bindCreateMedicalHistoryRequest hr = true) :
    (createPatient db now none pr
        = (⟨201, .patientRec (newPatient db now pr)⟩,
            (dbCreatePatientRow db now pr).1) ∧
      (newPatient db now pr).id ∉ db.patients.map Patient.id ∧
      (getPatient (createPatient db now none pr).2 none
          (newPatient db now pr).id).status = 200 ∧
      ((getPatient (createPatient db now none pr).2 none
          (newPatient db now pr).id).body).patientOf
        = some (newPatient db now pr)) ∧
    (createAppointment db now none ar
        = (⟨201, .appointmentRec (newAppointment db now ar)⟩,
            (dbCreateAppointmentRow db now ar).1) ∧
      (newAppointment db now ar).id ∉ db.appointments.map Appointment.id ∧
      (getAppointment (createAppointment db now none ar).2 none
          (newAppointment db now ar).id).status = 200 ∧
      ((getAppointment (createAppointment db now none ar).2 none
          (newAppointment db now ar).id).body).appointmentOf
        = some (newAppointment db now ar)) ∧
    (createMedicalHistory db now none hr
        = (⟨201, .historyRec (newMedicalHistory db now hr)⟩,
            (dbCreateMedicalHistoryRow db now hr).1) ∧
      (newMedicalHistory db now hr).id
        ∉ db.medicalHistories.map MedicalHistory.id ∧
      getMedicalHistoryByID (createMedicalHistory db now none hr).2
          (newMedicalHistory db now hr).id
        = .ok (newMedicalHistory db now hr)) := by
  have hfp := find?_append_fresh (fun p => p.id) db.patients
    (newPatient db now pr).id (newPatient db now pr) rfl hwfp
  have hfa := find?_append_fresh (fun a => a.id) db.appointments
    (newAppointment db now ar).id (newAppointment db now ar) rfl hwfa
  have hfh := find?_append_fresh (fun h => h.id) db.medicalHistories
    (newMedicalHistory db now hr).id (newMedicalHistory db now hr) rfl hwfh
  refine ⟨⟨?_, fresh_key_not_mem _ _ _ hwfp, ?_, ?_⟩,
    ⟨?_, fresh_key_not_mem _ _ _ hwfa, ?_, ?_⟩,
    ⟨?_, fresh_key_not_mem _ _ _ hwfh, ?_⟩⟩ <;>
    simp [createPatient, createAppointment, createMedicalHistory,
      dbCreatePatient, dbCreatePatientRow, dbCreateAppointmentRow,
      dbCreateMedicalHistoryRow, hbp, hg, hba, hbh, getPatient,
      getAppointment, getMedicalHistoryByID, dbFirstPatient,
      dbFirstAppointment, hfp, hfa, hfh, Body.patientOf, Body.appointmentOf]

/-- C1 witness: creating the sample payload in the sample store answers 201
with the fresh identifier 2, which was unused, and reading it back returns
the created record. -/
theorem create_assigns_fresh_id_and_roundtrips_witness :
    createPatient sampleDB 7 none samplePatientReq
      = (⟨201, .patientRec (newPatient sampleDB 7 samplePatientReq)⟩,
          (dbCreatePatientRow sampleDB 7 samplePatientReq).1) ∧
    (newPatient sampleDB 7 samplePatientReq).id
      ∉ sampleDB.patients.map Patient.id ∧
    ((getPatient (createPatient sampleDB 7 none samplePatientReq).2 none
        (newPatient sampleDB 7 samplePatientReq).id).body).patientOf
      = some (newPatient sampleDB 7 samplePatientReq) := by
  have h := create_assigns_fresh_id_and_roundtrips sampleDB 7
    samplePatientReq sampleAppointmentReq sampleHistoryReq
    (by decide) (by decide) (by decide) (by decide) (by decide)
    (by decide) (by decide)
  exact ⟨h.1.1, h.1.2.1, h.1.2.2.2⟩

/-- C2: PUT answers 404 and leaves the store unchanged when no row carries
the identifier; otherwise, with a valid body, every mutable field is
overwritten with the supplied values — identifier and creation timestamp
kept — and the stored row afterwards is exactly the replaced record, with
no merge of prior values. -/
theorem put_replaces_every_mutable_field (db : DB) (id : Nat)
    (pr : CreatePatientRequest) (ar : CreateAppointmentRequest) :
    (db.patients.find? (fun p => p.id == id) = none →
      updatePatient db none none id pr
        = (⟨404, .err "Patient not found"⟩, db)) ∧
    (db.appointments.find? (fun a => a.id == id) = none →
      updateAppointment db none none id ar
        = (⟨404, .err "Appointment not found"⟩, db)) ∧
    (∀ p, db.patients.find? (fun q => q.id == id) = some p →
      bindCreatePatientRequest pr = true →
      (updatePatient db none none id pr).1
        = ⟨200, .patientRec ⟨p.id, p.createdAt, pr.fullName, pr.birthDate,
            pr.gender, pr.phone, pr.email⟩⟩ ∧
      (updatePatient db none none id pr).2.patients.find?
          (fun q => q.id == id)
        = some ⟨p.id, p.createdAt, pr.fullName, pr.birthDate, pr.gender,
            pr.phone, pr.email⟩) ∧
    (∀ a, db.appointments.find? (fun q => q.id == id) = some a →
      bindCreateAppointmentRequest ar = true →
      (updateAppointment db none none id ar).1
        = ⟨200, .appointmentRec ⟨a.id, a.createdAt, ar.patientID,
            ar.doctorID, ar.date, ar.diagnosis, ar.treatment, ar.notes⟩⟩ ∧
      (updateAppointment db none none id ar).2.appointments.find?
          (fun q => q.id == id)
        = some ⟨a.id, a.createdAt, ar.patientID, ar.doctorID, ar.date,
            ar.diagnosis, ar.treatment, ar.notes⟩) := by
  refine ⟨?_, ?_, ?_, ?_⟩
  · intro h
    simp [updatePatient, dbFirstPatient, h]
  · intro h
    simp [updateAppointment, dbFirstAppointment, h]
  · intro p hp hb
    have hk : p.id = id := find?_key_eq (fun q : Patient => q.id) _ _ _ hp
    refine ⟨?_, ?_⟩
    · simp [updatePatient, dbFirstPatient, hp, hb]
    · simp only [updatePatient, dbFirstPatient, hp, hb, if_true]
      exact find?_replace_by_key (fun q : Patient => q.id) db.patients id p _
        hp (by simp [hk])
  · intro a ha hb
    have hk : a.id = id :=
      find?_key_eq (fun q : Appointment => q.id) _ _ _ ha
    refine ⟨?_, ?_⟩
    · simp [updateAppointment, dbFirstAppointment, ha, hb]
    · simp only [updateAppointment, dbFirstAppointment, ha, hb, if_true]
      exact find?_replace_by_key (fun q : Appointment => q.id) db.appointments
        id a _ ha (by simp [hk])

/-- C2 witness: replacing the absent identifier 99 answers 404 and changes
nothing; replacing patient 1 of the sample store stores exactly the new
payload under the old identifier and creation timestamp. -/
theorem put_replaces_every_mutable_field_witness :
    updatePatient sampleDB none none 99 samplePatientReq
      = (⟨404, .err "Patient not found"⟩, sampleDB) ∧
    (updatePatient sampleDB none none 1 samplePatientReq).2.patients.find?
        (fun q => q.id == 1)
      = some ⟨1, 5, "Replaced Name", timeDate 1991 2 3, "female",
          "+70001112233", "r@mail.ru"⟩ := by
  refine ⟨(put_replaces_every_mutable_field sampleDB 99 samplePatientReq
      sampleAppointmentReq).1 (by decide), ?_⟩
  exact ((put_replaces_every_mutable_field sampleDB 1 samplePatientReq
    sampleAppointmentReq).2.2.1 samplePatient (by decide) (by decide)).2

/-- C6: POST /appointments with present (non-zero) patient, doctor and date
fields answers 201 and persists the row even when no patient or doctor with
the referenced identifiers exists: no referential integrity is enforced. -/
theorem create_appointment_without_referent (db : DB) (now : GoTime)
    (ar : CreateAppointmentRequest)
    (hba : bindCreateAppointmentRequest ar = true)
    (hnop : ∀ p ∈ db.patients, p.id ≠ ar.patientID)
    (hnod : ∀ d ∈ db.doctors, d.id ≠ ar.doctorID) :
    createAppointment db now none ar
      = (⟨201, .appointmentRec (newAppointment db now ar)⟩,
          { db with
            appointments := db.appointments ++ [newAppointment db now ar],
            nextAppointmentID := db.nextAppointmentID + 1 }) := by
  simp [createAppointment, hba, dbCreateAppointmentRow]

/-- A payload referencing the nonexistent patient 9999 and doctor 9999. -/
def danglingAppointmentReq : CreateAppointmentRequest :=
  ⟨9999, 9999, 42, "", "", ""⟩

/-- C6 witness: the sample store has no patient 9999 and no doctor 9999,
yet the create answers 201 and persists the dangling row. -/
theorem create_appointment_without_referent_witness :
    createAppointment sampleDB 7 none danglingAppointmentReq
      = (⟨201, .appointmentRec (newAppointment sampleDB 7
            danglingAppointmentReq)⟩,
          { sampleDB with
            appointments := sampleDB.appointments
              ++ [newAppointment sampleDB 7 danglingAppointmentReq],
            nextAppointmentID := sampleDB.nextAppointmentID + 1 }) :=
  create_appointment_without_referent sampleDB 7 danglingAppointmentReq
    (by decide) (by decide) (by decide)

/-- C10: a required numeric field equal to zero (or the zero time in the
appointment date) makes binding fail, so the handler answers 400 and
creates no row; consequently rows that a successful create adds never
reference identifier 0. -/
theorem zero_required_fields_rejected (db : DB) (now : GoTime)
    (ar : CreateAppointmentRequest) (hr : CreateMedicalHistoryRequest) :
    (ar.patientID = 0 ∨ ar.doctorID = 0 ∨ ar.date = 0 →
      createAppointment db now none ar
        = (⟨400, .err bindingErrorMessage⟩, db)) ∧
    (hr.patientID = 0 →
      createMedicalHistory db now none hr
        = (⟨400, .err bindingErrorMessage⟩, db)) ∧
    (∀ fault resp db', createAppointment db now fault ar = (resp, db') →
      resp.status = 201 → ∀ a ∈ db'.appointments,
        a ∈ db.appointments ∨ (a.patientID ≠ 0 ∧ a.doctorID ≠ 0)) ∧
    (∀ fault resp db', createMedicalHistory db now fault hr = (resp, db') →
      resp.status = 201 → ∀ h ∈ db'.medicalHistories,
        h ∈ db.medicalHistories ∨ h.patientID ≠ 0) := by
  refine ⟨?_, ?_, ?_, ?_⟩
  · intro h
    have hb : bindCreateAppointmentRequest ar = false := by
      rcases h with h | h | h <;> simp [bindCreateAppointmentRequest, h]
    simp [createAppointment, hb]
  · intro h
    have hb : bindCreateMedicalHistoryRequest hr = false := by
      simp [bindCreateMedicalHistoryRequest, h]
    simp [createMedicalHistory, hb]
  · intro fault resp db' heq hst a ha
    cases hb : bindCreateAppointmentRequest ar with
    | false =>
      simp [createAppointment, hb] at heq
      rw [← heq.1] at hst
      simp at hst
    | true =>
      cases fault with
      | some m =>
        simp [createAppointment, hb] at heq
        rw [← heq.1] at hst
        simp at hst
      | none =>
        simp [createAppointment, hb, dbCreateAppointmentRow] at heq
        have hpid : ar.patientID ≠ 0 := by
          intro h0
          simp [bindCreateAppointmentRequest, h0] at hb
        have hdid : ar.doctorID ≠ 0 := by
          intro h0
          simp [bindCreateAppointmentRequest, h0] at hb
        rw [← heq.2] at ha
        simp only [List.mem_append, List.mem_singleton] at ha
        rcases ha with ha | ha
        · exact Or.inl ha
        · exact Or.inr (by rw [ha]; exact ⟨hpid, hdid⟩)
  · intro fault resp db' heq hst h hh
    cases hb : bindCreateMedicalHistoryRequest hr with
    | false =>
      simp [createMedicalHistory, hb] at heq
      rw [← heq.1] at hst
      simp at hst
    | true =>
      cases fault with
      | some m =>
        simp [createMedicalHistory, hb] at heq
        rw [← heq.1] at hst
        simp at hst
      | none =>
        simp [createMedicalHistory, hb, dbCreateMedicalHistoryRow] at heq
        have hpid : hr.patientID ≠ 0 := by
          intro h0
          simp [bindCreateMedicalHistoryRequest, h0] at hb
        rw [← heq.2] at hh
        simp only [List.mem_append, List.mem_singleton] at hh
        rcases hh with hh | hh
        · exact Or.inl hh
        · exact Or.inr (by rw [hh]; exact hpid)

/-- A payload whose required patient reference is zero. -/
def zeroAppointmentReq : CreateAppointmentRequest := ⟨0, 1, 42, "", "", ""⟩

/-- A payload whose required patient reference is zero. -/
def zeroHistoryReq : CreateMedicalHistoryRequest :=
  ⟨0, "allergy", "description", 0, "", "", ""⟩

/-- C10 witness: the zero-valued payloads are answered with 400 and the
sample store stays unchanged. -/
theorem zero_required_fields_rejected_witness :
    createAppointment sampleDB 7 none zeroAppointmentReq
      = (⟨400, .err bindingErrorMessage⟩, sampleDB) ∧
    createMedicalHistory sampleDB 7 none zeroHistoryReq
      = (⟨400, .err bindingErrorMessage⟩, sampleDB) :=
  ⟨(zero_required_fields_rejected sampleDB 7 zeroAppointmentReq
      zeroHistoryReq).1 (Or.inl rfl),
    (zero_required_fields_rejected sampleDB 7 zeroAppointmentReq
      zeroHistoryReq).2.1 rfl⟩

/-- C7 counterexample: two process starts one clock tick apart do not
produce identical data — the five seeded appointments' dates are offsets of
`time.Now()`, so the appointments table (and every creation timestamp)
differs between the two runs. -/
theorem seed_not_identical_across_starts_counterexample :
    seedDatabase emptyDB 0 ≠ seedDatabase emptyDB 1 ∧
    (seedDatabase emptyDB 0).appointments.map Appointment.date
      ≠ (seedDatabase emptyDB 1).appointments.map Appointment.date := by
  constructor <;> decide

set_option maxHeartbeats 4000000 in
/-- C7 (amended): the seed routine is deterministic only up to the clock:
started twice from the same prior store, the two runs agree on all five
tables except the clock-derived fields — each row's creation timestamp and
the seeded appointments' dates, which are offsets of `time.Now()` at the
respective start. -/
theorem seed_deterministic_up_to_clock (db : DB) (t1 t2 : GoTime) :
    stripDBTimes (seedDatabase db t1) = stripDBTimes (seedDatabase db t2) := by
  exact rfl

/-- The seed fault that makes only the bulk insert of patients fail. -/
def patientsInsertFault : SeedFaults :=
  ⟨false, false, false, false, false, true, false, false, false, false⟩

/-- C8 counterexample: when the seed's patients insert fails, startup still
reaches the HTTP listener and serves the partial seed state — empty
patients table, four doctors. -/
theorem seed_failure_still_listening_counterexample :
    mainStartup true true emptyDB 0 patientsInsertFault
      = .listening (seedDatabaseF emptyDB 0 patientsInsertFault) ∧
    (seedDatabaseF emptyDB 0 patientsInsertFault).patients = [] ∧
    (seedDatabaseF emptyDB 0 patientsInsertFault).doctors.length = 4 := by
  refine ⟨rfl, by decide, by decide⟩

/-- C8 (amended): only a database-connection or migration failure aborts
startup; every storage failure inside the seed routine is discarded, and
the process reaches the HTTP listener with whatever partial seed state the
surviving statements produced. -/
theorem startup_aborts_only_on_open_or_migrate (migrateOk : Bool) (db : DB)
    (now : GoTime) (f : SeedFaults) :
    mainStartup true true db now f = .listening (seedDatabaseF db now f) ∧
    mainStartup false migrateOk db now f
      = .panicked "Failed to connect to database" ∧
    mainStartup true false db now f
      = .panicked "Database migration failed" :=
  ⟨rfl, rfl, rfl⟩

end Demeda
